import Mathlib

/-
Verification development for the vipsgen C introspection layer
(src/introspection/introspection.c and src/internal/introspection/introspection.c).

The foreign GObject/GType registry is modelled abstractly: a GType is an
opaque numeric identifier, and the registry capabilities the C code queries
(g_type_is_a against the image / pointer / bytes / blob / array types,
g_type_name, g_type_from_name, g_type_class_ref, g_type_children,
instantiation via g_object_new) are fields of explicit environment
structures.  Each C function is translated into a Lean function over these
environments; machine ints are Nat or Int, C strings are String when the
code guarantees non-null and Option String where NULL can flow.
-/

set_option autoImplicit false

/-- Capabilities of one GType as reported by the foreign registry: the
results of the g_type_is_a membership tests and name tests that the C code
performs on a parameter value type. -/
structure TypeCaps where
  /-- g_type_is_a(t, vips_image_get_type()) -/
  isImage : Bool
  /-- g_type_is_a(t, G_TYPE_POINTER) -/
  isPointer : Bool
  /-- g_type_is_a(t, G_TYPE_BYTES) -/
  isBytes : Bool
  /-- g_type_is_a(t, vips_blob_get_type()) -/
  isBlob : Bool
  /-- g_type_name(t) == NULL -/
  nameIsNull : Bool
  /-- strcmp(g_type_name(t), "gpointer") == 0 -/
  isGPointerName : Bool
  /-- g_type_is_a(t, vips_array_double_get_type()) -/
  isArrayDouble : Bool
  /-- g_type_is_a(t, vips_array_int_get_type()) -/
  isArrayInt : Bool
  /-- g_type_is_a(t, vips_array_image_get_type()) -/
  isArrayImage : Bool
  deriving DecidableEq, Repr

/-- VipsArgumentFlags bit VIPS_ARGUMENT_REQUIRED. -/
def VIPS_ARGUMENT_REQUIRED : Nat := 1

/-- VipsArgumentFlags bit VIPS_ARGUMENT_INPUT. -/
def VIPS_ARGUMENT_INPUT : Nat := 16

/-- VipsArgumentFlags bit VIPS_ARGUMENT_OUTPUT. -/
def VIPS_ARGUMENT_OUTPUT : Nat := 32

/-- VipsArgumentFlags bit VIPS_ARGUMENT_DEPRECATED. -/
def VIPS_ARGUMENT_DEPRECATED : Nat := 64

/-- C test (flags & bit) != 0 on a VipsArgumentFlags word. -/
def hasFlag (flags bit : Nat) : Bool := flags &&& bit != 0

/-- Which G_IS_PARAM_SPEC_* class a GParamSpec belongs to, together with the
default value stored in that class (the else-if chain of collect_argument
tests exactly one of these).  gdouble and gfloat payloads are modelled as
rationals: the C code only copies them (and widens float to double, which
is exact), it never computes with them. -/
inductive PSpecDefault where
  | pBool (b : Bool)
  | pInt (i : Int)
  | pUInt (u : Nat)
  | pDouble (d : Rat)
  | pFloat (f : Rat)
  | pString (s : Option String)
  | pEnum (v : Int)
  | pOther
  deriving DecidableEq, Repr

/-- A GParamSpec as seen through the reflection calls used by the C code. -/
structure GParamSpec where
  /-- g_param_spec_get_name -/
  name : String
  /-- g_param_spec_get_nick -/
  nick : String
  /-- g_param_spec_get_blurb -/
  blurb : String
  /-- G_PARAM_SPEC_VALUE_TYPE, an opaque GType identifier -/
  value_type : Nat
  /-- the param-spec class and its stored default -/
  dflt : PSpecDefault
  deriving DecidableEq, Repr

/-- One entry of the vips argument table of an operation: the pspec plus
the VipsArgumentClass flags word that vips_argument_map hands the callback. -/
structure VipsParam where
  pspec : GParamSpec
  flags : Nat
  deriving DecidableEq, Repr

/-- The class data of a concrete operation type: its nickname and its
argument table, in traversal order of vips_argument_map. -/
structure OpClass where
  nickname : String
  params : List VipsParam
  deriving DecidableEq, Repr

/-- The ArgInfo record filled by collect_argument (introspection.h).
string_default is Option String because the C field is a char pointer that
stays NULL unless a string default exists. -/
structure ArgInfo where
  name : String
  nick : String
  blurb : String
  flags : Nat
  type_val : Nat
  is_input : Bool
  is_output : Bool
  required : Bool
  has_default : Bool
  default_type : Nat
  bool_default : Bool
  int_default : Int
  double_default : Rat
  string_default : Option String
  deriving DecidableEq, Repr

/-- The C cast (gint)u of a guint default: reduce modulo 2^32 and
reinterpret as a two-complement 32-bit signed value. -/
def gint_of_guint (u : Nat) : Int :=
  let r : Nat := u % 2 ^ 32
  if r < 2 ^ 31 then (r : Int) else (r : Int) - 2 ^ 32

/-- collect_argument (internal/introspection.c, lines 171-244): skips a
deprecated argument (early return, modelled as none), otherwise records
name/nick/blurb, the raw flags word, the value type, the three direction
bits, and decodes the default value by the param-spec class. -/
def collect_argument (p : VipsParam) : Option ArgInfo :=
  if hasFlag p.flags VIPS_ARGUMENT_DEPRECATED then none
  else
    let base : ArgInfo :=
      { name := p.pspec.name
        nick := p.pspec.nick
        blurb := p.pspec.blurb
        flags := p.flags
        type_val := p.pspec.value_type
        is_input := hasFlag p.flags VIPS_ARGUMENT_INPUT
        is_output := hasFlag p.flags VIPS_ARGUMENT_OUTPUT
        required := hasFlag p.flags VIPS_ARGUMENT_REQUIRED
        has_default := false
        default_type := 0
        bool_default := false
        int_default := 0
        double_default := 0
        string_default := none }
    some (match p.pspec.dflt with
      | .pBool b => { base with has_default := true, default_type := 1, bool_default := b }
      | .pInt i => { base with has_default := true, default_type := 2, int_default := i }
      | .pUInt u => { base with has_default := true, default_type := 2, int_default := gint_of_guint u }
      | .pDouble d => { base with has_default := true, default_type := 3, double_default := d }
      | .pFloat f => { base with has_default := true, default_type := 3, double_default := f }
      | .pString (some s) => { base with has_default := true, default_type := 4, string_default := some s }
      | .pString none => base
      | .pEnum v => { base with has_default := true, default_type := 2, int_default := v }
      | .pOther => base)

/-- The per-operation capacity max_args of get_operation_arguments. -/
def max_args : Nat := 50

/-- The walk of vips_argument_map with collect_arguments_cb
(internal/introspection.c, lines 254-275): for every table
entry the callback first checks remaining capacity, then skips deprecated
arguments, then appends the collected ArgInfo and increments the count. -/
def collect_args_loop : List VipsParam → List ArgInfo → Nat → List ArgInfo
  | [], acc, _ => acc
  | p :: rest, acc, maxc =>
    let acc1 :=
      if acc.length ≥ maxc then acc
      else if hasFlag p.flags VIPS_ARGUMENT_DEPRECATED then acc
      else
        match collect_argument p with
        | some a => acc ++ [a]
        | none => acc
    collect_args_loop rest acc1 maxc

/-- The environment of the operation-level queries: the registered concrete
operation classes (in registry order) and the GType capability oracle. -/
structure IntroEnv where
  ops : List OpClass
  typeCaps : Nat → TypeCaps

/-- vips_operation_new: resolve an operation name against the registry.
vips looks the class up via vips_type_find, whose match predicate accepts
the class nickname (and the full class type name resolves back to the same
class, which is what the G_OBJECT_TYPE_NAME round trips inside
has_buffer_param and has_image_param rely on). -/
def vips_operation_new (env : IntroEnv) (name : String) : Option OpClass :=
  env.ops.find? (fun o => o.nickname = name)

/-- The argument list that get_operation_arguments builds for an already
instantiated operation: fold collect_arguments_cb over the argument table
with capacity max_args, starting from the empty collection. -/
def op_args (op : OpClass) : List ArgInfo :=
  collect_args_loop op.params [] max_args

/-- get_operation_arguments (internal/introspection.c, lines 277-301):
NULL with count 0 when the operation cannot be instantiated, otherwise the
collected (possibly truncated) argument records. -/
def get_operation_arguments (env : IntroEnv) (operation_name : String) :
    Option (List ArgInfo) :=
  match vips_operation_new env operation_name with
  | none => none
  | some op => some (op_args op)

/-- get_vips_operation_args (introspection.c, lines 188-210): the revision
of the argument lister in the public file.  vips_object_find_args records
the name and flags of every table entry, with no deprecated filtering. -/
def get_vips_operation_args (op : OpClass) : List (String × Nat) :=
  op.params.map (fun p => (p.pspec.name, p.flags))

/-- Scan of C strstr: test the needle against every suffix of the
haystack. -/
def strstr_aux (needle : List Char) : List Char → Bool
  | [] => needle.isEmpty
  | c :: rest => needle.isPrefixOf (c :: rest) || strstr_aux needle rest

/-- C strstr(hay, needle) viewed as a boolean: needle occurs as a
contiguous substring of hay. -/
def strstr (hay needle : String) : Bool := strstr_aux needle.data hay.data

/-- The category heuristic of get_operation_details
(internal/introspection.c, lines 486-496): a fixed-priority first-match
chain of strstr tests on the operation name. -/
def category_of (operation_name : String) : String :=
  if strstr operation_name "load" || strstr operation_name "save" then "foreign"
  else if strstr operation_name "conv" || strstr operation_name "conva" then "convolution"
  else if strstr operation_name "affine" || strstr operation_name "resize" then "resample"
  else if strstr operation_name "add" || strstr operation_name "subtract" then "arithmetic"
  else "operation"

/-- The buffer-type test of has_buffer_param (internal/introspection.c,
lines 408-413): pointer, bytes, blob, NULL type name, or the literal name
gpointer. -/
def buffer_type_ok (c : TypeCaps) : Bool :=
  c.isPointer || c.isBytes || c.isBlob || c.nameIsNull || c.isGPointerName

/-- has_buffer_param (internal/introspection.c, lines 395-423): re-extracts
the argument list of the operation and looks for an argument in the given
direction named exactly buf or buffer whose value type passes the buffer
type test. -/
def has_buffer_param (env : IntroEnv) (op : OpClass) (is_output : Bool) : Bool :=
  (op_args op).any (fun a =>
    a.is_output == is_output
      && (a.name == "buf" || a.name == "buffer")
      && buffer_type_ok (env.typeCaps a.type_val))

/-- has_image_param (internal/introspection.c, lines 426-447): re-extracts
the argument list and reports whether any argument in the given direction
has an image value type, together with how many do. -/
def has_image_param (env : IntroEnv) (op : OpClass) (is_output : Bool) : Bool × Nat :=
  let hits := (op_args op).filter (fun a =>
    a.is_output == is_output && (env.typeCaps a.type_val).isImage)
  (!hits.isEmpty, hits.length)

/-- The OperationDetails record (introspection.h).  category is an Option
because the C field is a char pointer that the zero initialisation leaves
NULL when the operation cannot be instantiated. -/
structure OperationDetails where
  has_image_input : Bool
  has_image_output : Bool
  has_one_image_output : Bool
  has_buffer_input : Bool
  has_buffer_output : Bool
  has_array_image_input : Bool
  category : Option String
  deriving DecidableEq, Repr

/-- get_operation_details (internal/introspection.c, lines 450-501):
zero-initialised details when instantiation fails, otherwise the image and
buffer summaries computed from the extracted argument list, the
array-image-input scan over input arguments, and the name-pattern
category.  The class of the probe instance is the class the name resolved
to, so its nickname is the non-null nickname string and the category
branch is always taken for an instantiable operation. -/
def get_operation_details (env : IntroEnv) (operation_name : String) : OperationDetails :=
  match vips_operation_new env operation_name with
  | none => ⟨false, false, false, false, false, false, none⟩
  | some op =>
    let himg_in := has_image_param env op false
    let himg_out := has_image_param env op true
    { has_image_input := himg_in.1
      has_image_output := himg_out.1
      has_one_image_output := himg_out.2 == 1
      has_buffer_input := has_buffer_param env op false
      has_buffer_output := has_buffer_param env op true
      has_array_image_input := (op_args op).any (fun a =>
        !a.is_output && (env.typeCaps a.type_val).isArrayImage)
      category := some (category_of operation_name) }

/-- One GEnumValue of a GEnumClass: value_name and value_nick are char
pointers that the registry may leave NULL. -/
structure GEnumValue where
  value_name : Option String
  value : Int
  value_nick : Option String
  deriving DecidableEq, Repr

/-- A GEnumClass: its values array, whose length is the reported n_values. -/
structure GEnumClass where
  values : List GEnumValue
  deriving DecidableEq, Repr

/-- The EnumValueInfo record (introspection.h): name and nick are char
pointers, kept as Option String so that non-nullness is a provable
property of the code rather than a typing assumption. -/
structure EnumValueInfo where
  name : Option String
  value : Int
  nick : Option String
  deriving DecidableEq, Repr

/-- The environment of the enum resolver: g_type_from_name (0, modelled as
none, when the name is unknown) and the enum class obtained from
g_type_class_ref (none when the type yields no enum class). -/
structure EnumEnv where
  type_from_name : String → Option Nat
  enum_class_of : Nat → Option GEnumClass

/-- get_enum_values (both revisions, identical code): NULL with count 0
for an unknown name, a missing enum class, or a reported value count
outside [1, 100]; otherwise a copy of the values with NULL names replaced
by the UNKNOWN placeholder and NULL nicks replaced by the empty string. -/
def get_enum_values (env : EnumEnv) (enum_type_name : String) :
    Option (List EnumValueInfo) :=
  match env.type_from_name enum_type_name with
  | none => none
  | some t =>
    match env.enum_class_of t with
    | none => none
    | some ec =>
      let count := ec.values.length
      if count ≤ 0 ∨ count > 100 then none
      else
        some (ec.values.map (fun v =>
          { name := match v.value_name with
              | some s => some s
              | none => some "UNKNOWN"
            value := v.value
            nick := match v.value_nick with
              | some s => some s
              | none => some "" }))

/-- A node of the GType hierarchy as the walkers see it: abstractness,
the class nickname (a char pointer, possibly NULL), whether g_object_new
succeeds on it, the class description (possibly NULL), the flags that
vips_operation_get_flags would report for an instance, and the child
types in g_type_children order. -/
inductive GTypeNode where
  | mk (abstract : Bool) (nickname : Option String) (instantiable : Bool)
       (description : Option String) (flags : Nat) (children : List GTypeNode)

/-- G_TYPE_IS_ABSTRACT. -/
def GTypeNode.abstract : GTypeNode → Bool
  | .mk a _ _ _ _ _ => a

/-- The class nickname. -/
def GTypeNode.nickname : GTypeNode → Option String
  | .mk _ n _ _ _ _ => n

/-- Whether g_object_new returns a non-null instance for this type. -/
def GTypeNode.instantiable : GTypeNode → Bool
  | .mk _ _ i _ _ _ => i

/-- The class description. -/
def GTypeNode.description : GTypeNode → Option String
  | .mk _ _ _ d _ _ => d

/-- The operation flags of an instance of this type. -/
def GTypeNode.flags : GTypeNode → Nat
  | .mk _ _ _ _ f _ => f

/-- g_type_children. -/
def GTypeNode.children : GTypeNode → List GTypeNode
  | .mk _ _ _ _ _ cs => cs

/-- The per-type body shared by the two loop levels of
get_all_operation_names: a non-abstract type with a non-null nickname that
instantiates successfully contributes that nickname, anything else
contributes nothing. -/
def tryNickname (t : GTypeNode) : List String :=
  if t.abstract then []
  else
    match t.nickname with
    | some nick => if t.instantiable then [nick] else []
    | none => []

/-- get_all_operation_names (identical in both revisions): for each child
of the base operation type, collect its nickname, then the nicknames of
its own children (grandchildren of the base, visited even under an
abstract child); no deeper level is ever visited. -/
def get_all_operation_names (base : GTypeNode) : List String :=
  base.children.flatMap (fun c => tryNickname c ++ c.children.flatMap tryNickname)

/-- Strict descendant of a node in the type hierarchy, at any depth. -/
inductive Descendant : GTypeNode → GTypeNode → Prop
  | child {base t : GTypeNode} : t ∈ base.children → Descendant base t
  | step {base c t : GTypeNode} : c ∈ base.children → Descendant c t → Descendant base t

/-- The OperationInfo record (introspection.h). -/
structure OperationInfo where
  name : String
  nickname : String
  description : String
  flags : Nat
  deriving DecidableEq, Repr

/-- The per-operation capacity max_ops of get_all_operations. -/
def max_ops : Nat := 1000

/-- collect_operations (internal/introspection.c, lines 322-347): a
non-abstract type is recorded, while the running count is below the
capacity, provided its class has a non-null nickname; the flags come from
a probe instance when one can be made and are 0 otherwise. -/
def collect_operations (t : GTypeNode) (acc : List OperationInfo) (maxc : Nat) :
    List OperationInfo :=
  if !t.abstract && acc.length < maxc then
    match t.nickname with
    | some nick =>
      acc ++ [{ name := nick
                nickname := nick
                description := t.description.getD ""
                flags := if t.instantiable then t.flags else 0 }]
    | none => acc
  else acc

/-- The child list of a node is structurally smaller than the node. -/
theorem GTypeNode.sizeOf_children_lt (t : GTypeNode) : sizeOf t.children < sizeOf t := by
  cases t with
  | mk a n i d f cs => simp [GTypeNode.children]

mutual

/-- collect_operations_recursive (internal/introspection.c, lines
350-363): record this type, then walk the child list. -/
def collect_operations_recursive (maxc : Nat) (t : GTypeNode)
    (acc : List OperationInfo) : List OperationInfo :=
  children_loop maxc t.children (collect_operations t acc maxc)
termination_by sizeOf t
decreasing_by
  all_goals simp_wf
  all_goals exact GTypeNode.sizeOf_children_lt t

/-- The child loop of collect_operations_recursive: before each child the
C for-loop re-checks that the running count is still below the capacity
and stops otherwise. -/
def children_loop (maxc : Nat) : List GTypeNode → List OperationInfo → List OperationInfo
  | [], acc => acc
  | c :: rest, acc =>
    if acc.length < maxc then children_loop maxc rest (collect_operations_recursive maxc c acc)
    else acc
termination_by cs => sizeOf cs
decreasing_by
  all_goals simp_wf
  all_goals omega

end

/-- get_all_operations (internal/introspection.c, lines 366-379): the
recursive walk from the base operation type with capacity max_ops,
starting from an empty collection. -/
def get_all_operations (base : GTypeNode) : List OperationInfo :=
  collect_operations_recursive max_ops base []

/-- The recognised conventional array parameter names of the consumer-side
classifier. -/
def array_param_names : List String :=
  ["vector", "out_array", "a", "b", "c", "ink", "coefficients"]

/-- The per-descriptor semantic tags. -/
structure ClassTags where
  is_image : Bool
  is_buffer : Bool
  is_array : Bool
  deriving DecidableEq, Repr

/-- Modelled from the spec: the per-descriptor isImage / isBuffer /
isArray classification of section 4.3.  The C sources under src declare
the is_image, is_buffer and is_array fields of ArgInfo but never assign
them (collect_argument fills every other field); the classification that
fills them lives in the consumer of this layer and is modelled here from
the spec text: isImage iff the value kind is-a image type; isBuffer iff
the name is exactly buf or buffer and the kind is raw-pointer-like,
byte-blob-like or untyped/opaque; isArray iff the kind is-a
array-of-double, array-of-int or array-of-image, or the parameter is
pointer-kind with one of the recognised conventional array names. -/
def classify_param (name : String) (c : TypeCaps) : ClassTags :=
  { is_image := c.isImage
    is_buffer := (name == "buf" || name == "buffer")
      && (c.isPointer || (c.isBytes || c.isBlob) || (c.nameIsNull || c.isGPointerName))
    is_array := c.isArrayDouble || c.isArrayInt || c.isArrayImage
      || (c.isPointer && array_param_names.contains name) }

/-- A nickname is contributed by a type exactly when the type is
non-abstract, carries that nickname (non-null, possibly empty) and
instantiates successfully. -/
theorem mem_tryNickname {t : GTypeNode} {n : String} :
    n ∈ tryNickname t ↔
      t.abstract = false ∧ t.nickname = some n ∧ t.instantiable = true := by
  rcases t with ⟨a, nick, i, d, f, cs⟩
  simp only [tryNickname, GTypeNode.abstract, GTypeNode.nickname, GTypeNode.instantiable]
  cases a with
  | false =>
    cases nick with
    | none => simp
    | some s => cases i <;> simp [eq_comm]
  | true => simp

/-- Concrete hierarchy for the walker claims: a depth-3 chain of types
below the base, plus a depth-1 type with an empty nickname. -/
def exDeepD : GTypeNode := .mk false (some "deep") true none 0 []

/-- Abstract intermediate type at depth 2. -/
def exDeepB : GTypeNode := .mk true none false none 0 [exDeepD]

/-- Abstract intermediate type at depth 1. -/
def exDeepA : GTypeNode := .mk true none false none 0 [exDeepB]

/-- Concrete instantiable type at depth 1 whose nickname is the empty
string. -/
def exEmptyNick : GTypeNode := .mk false (some "") true none 0 []

/-- The base operation type of the concrete hierarchy. -/
def exDeepBase : GTypeNode := .mk true none false none 0 [exDeepA, exEmptyNick]

/-- Claim C1, counterexample.  exDeepD is reachable from the base, is
concrete, has the non-null non-empty nickname deep and instantiates, yet
its nickname is absent from get_all_operation_names because the walk
visits only children and grandchildren; and the returned sequence contains
the empty nickname of exEmptyNick, which the claim excludes. -/
theorem C1_walk_counterexample :
    Descendant exDeepBase exDeepD ∧
    exDeepD.abstract = false ∧
    exDeepD.nickname = some "deep" ∧
    "deep" ≠ "" ∧
    exDeepD.instantiable = true ∧
    get_all_operation_names exDeepBase = [""] ∧
    "deep" ∉ get_all_operation_names exDeepBase ∧
    Descendant exDeepBase exEmptyNick ∧
    exEmptyNick.abstract = false ∧
    exEmptyNick.nickname = some "" ∧
    exEmptyNick.instantiable = true ∧
    "" ∈ get_all_operation_names exDeepBase := by
  refine ⟨?_, rfl, rfl, by decide, rfl, rfl, by decide, ?_, rfl, rfl, rfl, by decide⟩
  · exact @Descendant.step exDeepBase exDeepA exDeepD
      (by simp [exDeepBase, GTypeNode.children])
      (@Descendant.step exDeepA exDeepB exDeepD
        (by simp [exDeepA, GTypeNode.children])
        (@Descendant.child exDeepB exDeepD (by simp [exDeepB, GTypeNode.children])))
  · exact @Descendant.child exDeepBase exEmptyNick
      (by simp [exDeepBase, GTypeNode.children])

/-- Claim C1, amended: a nickname appears in the sequence returned by
get_all_operation_names if and only if some child or grandchild of the
base operation type (deeper descendants are never visited) is concrete,
has exactly that non-null nickname (emptiness is not checked), and can be
instantiated with zero arguments. -/
theorem C1_walk_amended (base : GTypeNode) (n : String) :
    n ∈ get_all_operation_names base ↔
      ∃ t : GTypeNode,
        (t ∈ base.children ∨ ∃ c ∈ base.children, t ∈ c.children) ∧
        t.abstract = false ∧ t.nickname = some n ∧ t.instantiable = true := by
  unfold get_all_operation_names
  simp only [List.mem_flatMap, List.mem_append, mem_tryNickname]
  constructor
  · rintro ⟨c, hc, h | ⟨g, hg, hgp⟩⟩
    · exact ⟨c, Or.inl hc, h⟩
    · exact ⟨g, Or.inr ⟨c, hc, hg⟩, hgp⟩
  · rintro ⟨t, ht | ⟨c, hc, htc⟩, hp⟩
    · exact ⟨t, ht, Or.inl hp⟩
    · exact ⟨c, hc, Or.inr ⟨t, htc, hp⟩⟩

/-- collect_operations never grows the collection past the capacity. -/
theorem collect_operations_length_le (t : GTypeNode) (acc : List OperationInfo)
    (maxc : Nat) (h : acc.length ≤ maxc) :
    (collect_operations t acc maxc).length ≤ maxc := by
  unfold collect_operations
  split
  · next hcond =>
    have hlt : acc.length < maxc := by
      simp only [Bool.and_eq_true, decide_eq_true_eq] at hcond
      exact hcond.2
    cases hn : t.nickname with
    | some nick => simp [hn]; omega
    | none => simpa [hn] using h
  · exact h

/-- The recursive walk and its child loop keep the collection within the
capacity, by joint strong induction on the structural size. -/
theorem walk_length_le (maxc : Nat) (k : Nat) :
    (∀ t : GTypeNode, sizeOf t ≤ k → ∀ acc : List OperationInfo,
        acc.length ≤ maxc → (collect_operations_recursive maxc t acc).length ≤ maxc) ∧
    (∀ cs : List GTypeNode, sizeOf cs ≤ k → ∀ acc : List OperationInfo,
        acc.length ≤ maxc → (children_loop maxc cs acc).length ≤ maxc) := by
  induction k with
  | zero =>
    constructor
    · intro t ht
      have hpos : 0 < sizeOf t := by cases t; simp_arith
      omega
    · intro cs hcs
      have hpos : 0 < sizeOf cs := by cases cs <;> simp_arith
      omega
  | succ k ih =>
    constructor
    · intro t ht acc hacc
      unfold collect_operations_recursive
      refine ih.2 t.children ?_ _ (collect_operations_length_le t acc maxc hacc)
      have := GTypeNode.sizeOf_children_lt t
      omega
    · intro cs hcs acc hacc
      cases cs with
      | nil => simpa [children_loop] using hacc
      | cons c rest =>
        simp only [children_loop]
        split
        · have hsz : sizeOf (c :: rest) = 1 + sizeOf c + sizeOf rest := by simp
          refine ih.2 rest (by omega) _ (ih.1 c (by omega) acc hacc)
        · exact hacc

/-- Claim C10: for every state of the type hierarchy, get_all_operations
returns at most 1000 operation records; once the running count reaches the
capacity the walk stops adding records, so further reachable types are
silently omitted and no out-of-bounds write can occur. -/
theorem C10_get_all_operations_le (base : GTypeNode) :
    (get_all_operations base).length ≤ 1000 := by
  have h := (walk_length_le max_ops (sizeOf base)).1 base le_rfl [] (by simp)
  simpa [get_all_operations, max_ops] using h

/-- Capability row of a GType that is-a image and nothing else. -/
def capsImage : TypeCaps := ⟨true, false, false, false, false, false, false, false, false⟩

/-- Capability row of a plain scalar GType. -/
def capsNone : TypeCaps := ⟨false, false, false, false, false, false, false, false, false⟩

/-- Capability row of a raw pointer GType. -/
def capsPointer : TypeCaps := ⟨false, true, false, false, false, false, false, false, false⟩

/-- A small concrete operation: nickname invert, one image input and one
image output. -/
def exOpInvert : OpClass :=
  ⟨"invert", [⟨⟨"in", "Input", "Input image", 1, .pOther⟩, 17⟩,
              ⟨⟨"out", "Output", "Output image", 1, .pOther⟩, 33⟩]⟩

/-- Registry with the single operation invert; GType 1 is the image type. -/
def exEnvInvert : IntroEnv := ⟨[exOpInvert], fun n => if n == 1 then capsImage else capsNone⟩

/-- Claim C3: for every instantiable operation, the category assigned by
get_operation_details is determined by the fixed-priority first-match-wins
rule over the identifier: load or save gives foreign; else conv or conva
gives convolution; else affine or resize gives resample; else add or
subtract gives arithmetic; else operation.  An identifier containing both
load and conv is foreign, and the category always lies in the closed
five-element set. -/
theorem C3_category (env : IntroEnv) (name : String) (op : OpClass)
    (h : vips_operation_new env name = some op) :
    (get_operation_details env name).category = some (category_of name) ∧
    ((strstr name "load" || strstr name "save") = true → category_of name = "foreign") ∧
    ((strstr name "load" || strstr name "save") = false →
      (strstr name "conv" || strstr name "conva") = true →
      category_of name = "convolution") ∧
    ((strstr name "load" || strstr name "save") = false →
      (strstr name "conv" || strstr name "conva") = false →
      (strstr name "affine" || strstr name "resize") = true →
      category_of name = "resample") ∧
    ((strstr name "load" || strstr name "save") = false →
      (strstr name "conv" || strstr name "conva") = false →
      (strstr name "affine" || strstr name "resize") = false →
      (strstr name "add" || strstr name "subtract") = true →
      category_of name = "arithmetic") ∧
    ((strstr name "load" || strstr name "save") = false →
      (strstr name "conv" || strstr name "conva") = false →
      (strstr name "affine" || strstr name "resize") = false →
      (strstr name "add" || strstr name "subtract") = false →
      category_of name = "operation") ∧
    (strstr name "load" = true → strstr name "conv" = true →
      category_of name = "foreign") ∧
    (category_of name = "foreign" ∨ category_of name = "convolution" ∨
      category_of name = "resample" ∨ category_of name = "arithmetic" ∨
      category_of name = "operation") := by
  refine ⟨by simp [get_operation_details, h], ?_, ?_, ?_, ?_, ?_, ?_, ?_⟩
  · intro h1
    simp [category_of, h1]
  · intro h1 h2
    simp [category_of, h1, h2]
  · intro h1 h2 h3
    simp [category_of, h1, h2, h3]
  · intro h1 h2 h3 h4
    simp [category_of, h1, h2, h3, h4]
  · intro h1 h2 h3 h4
    simp [category_of, h1, h2, h3, h4]
  · intro hl hc
    have hls : (strstr name "load" || strstr name "save") = true := by simp [hl]
    simp [category_of, hls]
  · unfold category_of
    split_ifs <;> simp

/-- Witness for claim C3 at the concrete registry exEnvInvert. -/
theorem C3_category_witness :
    (get_operation_details exEnvInvert "invert").category = some (category_of "invert") :=
  (C3_category exEnvInvert "invert" exOpInvert (by decide)).1

/-- Claim C4: for every non-deprecated collected parameter, the default is
decoded by the declared param-spec kind: boolean kind gives a boolean
default; integer and unsigned-integer kinds give an integer default, the
unsigned one narrowed to gint; double and float kinds give a floating
default; string kind gives a string default, with has_default set, only
when the foreign default string is non-null; enum kind gives the enum
default number as integer default; the remaining kinds leave has_default
unset. -/
theorem C4_defaults (p : VipsParam)
    (hdep : hasFlag p.flags VIPS_ARGUMENT_DEPRECATED = false)
    (a : ArgInfo) (ha : collect_argument p = some a) :
    (∀ b, p.pspec.dflt = .pBool b →
        a.has_default = true ∧ a.default_type = 1 ∧ a.bool_default = b) ∧
    (∀ i, p.pspec.dflt = .pInt i →
        a.has_default = true ∧ a.default_type = 2 ∧ a.int_default = i) ∧
    (∀ u, p.pspec.dflt = .pUInt u →
        a.has_default = true ∧ a.default_type = 2 ∧ a.int_default = gint_of_guint u) ∧
    (∀ d, p.pspec.dflt = .pDouble d →
        a.has_default = true ∧ a.default_type = 3 ∧ a.double_default = d) ∧
    (∀ f, p.pspec.dflt = .pFloat f →
        a.has_default = true ∧ a.default_type = 3 ∧ a.double_default = f) ∧
    (∀ s, p.pspec.dflt = .pString (some s) →
        a.has_default = true ∧ a.default_type = 4 ∧ a.string_default = some s) ∧
    (p.pspec.dflt = .pString none →
        a.has_default = false ∧ a.string_default = none) ∧
    (∀ v, p.pspec.dflt = .pEnum v →
        a.has_default = true ∧ a.default_type = 2 ∧ a.int_default = v) ∧
    (p.pspec.dflt = .pOther → a.has_default = false) := by
  simp only [collect_argument, hdep, Bool.false_eq_true, if_false, Option.some.injEq] at ha
  subst ha
  refine ⟨fun b hb => ?_, fun i hi => ?_, fun u hu => ?_, fun d hd => ?_, fun f hf => ?_,
    fun s hs => ?_, fun hsn => ?_, fun v hv => ?_, fun ho => ?_⟩ <;> simp_all

/-- A concrete boolean parameter named shrink with foreign default true. -/
def exParamShrink : VipsParam := ⟨⟨"shrink", "Shrink", "Shrink factor", 0, .pBool true⟩, 17⟩

/-- The record collect_argument produces for exParamShrink. -/
def exArgShrink : ArgInfo :=
  { name := "shrink", nick := "Shrink", blurb := "Shrink factor", flags := 17, type_val := 0
    is_input := true, is_output := false, required := true
    has_default := true, default_type := 1, bool_default := true
    int_default := 0, double_default := 0, string_default := none }

/-- Witness for claim C4 at the concrete parameter exParamShrink. -/
theorem C4_defaults_witness :
    exArgShrink.has_default = true ∧ exArgShrink.default_type = 1 ∧
    exArgShrink.bool_default = true :=
  (C4_defaults exParamShrink (by decide) exArgShrink (by decide)).1 true rfl

/-- A successfully collected argument keeps the original flags word, and
collection only succeeds for non-deprecated flags. -/
theorem collect_argument_flags {p : VipsParam} {a : ArgInfo}
    (h : collect_argument p = some a) :
    a.flags = p.flags ∧ hasFlag p.flags VIPS_ARGUMENT_DEPRECATED = false := by
  cases hdep : hasFlag p.flags VIPS_ARGUMENT_DEPRECATED with
  | true => simp [collect_argument, hdep] at h
  | false =>
    simp only [collect_argument, hdep, Bool.false_eq_true, if_false, Option.some.injEq] at h
    subst h
    refine ⟨?_, rfl⟩
    rcases p.pspec.dflt with b | i | u | d | f | s | v | _
    all_goals try rfl
    cases s <;> rfl

/-- Every record in the output of the collection loop comes from the
initial accumulator or from a successful collect_argument call on one of
the walked parameters. -/
theorem mem_collect_args_loop {ps : List VipsParam} {maxc : Nat} :
    ∀ {acc : List ArgInfo} {a : ArgInfo}, a ∈ collect_args_loop ps acc maxc →
      a ∈ acc ∨ ∃ p ∈ ps, collect_argument p = some a := by
  induction ps with
  | nil =>
    intro acc a h
    exact Or.inl (by simpa [collect_args_loop] using h)
  | cons p rest ih =>
    intro acc a h
    simp only [collect_args_loop] at h
    rcases ih h with hacc | ⟨q, hq, hqa⟩
    · by_cases hfull : acc.length ≥ maxc
      · rw [if_pos hfull] at hacc
        exact Or.inl hacc
      · rw [if_neg hfull] at hacc
        cases hdep : hasFlag p.flags VIPS_ARGUMENT_DEPRECATED with
        | true =>
          simp only [hdep, if_true] at hacc
          exact Or.inl hacc
        | false =>
          simp only [hdep, Bool.false_eq_true, if_false] at hacc
          cases hca : collect_argument p with
          | some b =>
            rw [hca] at hacc
            rcases List.mem_append.mp hacc with h1 | h2
            · exact Or.inl h1
            · have hab : a = b := by simpa using h2
              exact Or.inr ⟨p, List.mem_cons_self p rest, hab ▸ hca⟩
          | none =>
            rw [hca] at hacc
            exact Or.inl hacc
    · exact Or.inr ⟨q, List.mem_cons_of_mem p hq, hqa⟩

/-- A concrete operation whose single parameter carries the deprecated
flag (flags 80 = INPUT + DEPRECATED). -/
def exOpDep : OpClass :=
  ⟨"embed_dep", [⟨⟨"opacity", "Opacity", "Deprecated opacity", 0, .pOther⟩, 80⟩]⟩

/-- Claim C5, counterexample.  The argument lister of the public revision,
get_vips_operation_args, returns the deprecated parameter opacity (its
flags word has the DEPRECATED bit set), while the descriptor lister
op_args / get_operation_arguments of the internal revision drops it. -/
theorem C5_deprecated_counterexample :
    get_vips_operation_args exOpDep = [("opacity", 80)] ∧
    hasFlag 80 VIPS_ARGUMENT_DEPRECATED = true ∧
    op_args exOpDep = [] := by decide

/-- Claim C5, amended: the descriptor-producing lister
get_operation_arguments never returns a record whose flags mark it
deprecated, but the raw name/flags lister get_vips_operation_args returns
the pair of every declared parameter, deprecated ones included. -/
theorem C5_deprecated_amended :
    (∀ (env : IntroEnv) (name : String) (args : List ArgInfo),
        get_operation_arguments env name = some args →
        ∀ a ∈ args, hasFlag a.flags VIPS_ARGUMENT_DEPRECATED = false) ∧
    (∀ (op : OpClass), ∀ p ∈ op.params,
        (p.pspec.name, p.flags) ∈ get_vips_operation_args op) := by
  constructor
  · intro env name args hargs a ha
    obtain ⟨op, hv, rfl⟩ :
        ∃ op, vips_operation_new env name = some op ∧ args = op_args op := by
      unfold get_operation_arguments at hargs
      cases hv : vips_operation_new env name with
      | none => rw [hv] at hargs; cases hargs
      | some op => rw [hv] at hargs; exact ⟨op, rfl, (Option.some.inj hargs).symm⟩
    rcases mem_collect_args_loop (by simpa [op_args] using ha) with hemp | ⟨p, _, hpa⟩
    · simp at hemp
    · obtain ⟨hf, hdep⟩ := collect_argument_flags hpa
      rw [hf]
      exact hdep
  · intro op p hp
    exact List.mem_map.mpr ⟨p, hp, rfl⟩

/-- Witness for claim C5 on the concrete operation exOpDep: the deprecated
pair really is an element of the raw listing. -/
theorem C5_deprecated_witness : ("opacity", 80) ∈ get_vips_operation_args exOpDep :=
  C5_deprecated_amended.2 exOpDep ⟨⟨"opacity", "Opacity", "Deprecated opacity", 0, .pOther⟩, 80⟩
    (by decide)

/-- A plain non-image input parameter (flags 17 = REQUIRED + INPUT). -/
def exParamNum : VipsParam := ⟨⟨"x", "X", "Plain input", 0, .pOther⟩, 17⟩

/-- An image output parameter (flags 33 = REQUIRED + OUTPUT, value type 1
is the image type in the concrete registries below). -/
def exParamImgOut : VipsParam := ⟨⟨"out", "Output", "Output image", 1, .pOther⟩, 33⟩

/-- An operation declaring 51 parameters: 49 plain inputs followed by two
image outputs, so the second image output lies beyond the capacity of the
argument extractor. -/
def exBigOp : OpClass :=
  ⟨"bigop", List.replicate 49 exParamNum ++ [exParamImgOut, exParamImgOut]⟩

/-- Registry holding exBigOp; GType 1 is the image type. -/
def exEnvBig : IntroEnv := ⟨[exBigOp], fun n => if n == 1 then capsImage else capsNone⟩

set_option maxRecDepth 8000 in
/-- Claim C6, counterexample.  exBigOp has exactly two non-deprecated
output-direction image parameters, yet get_operation_details reports
has_one_image_output = true, because the argument extraction truncates at
50 records and the second image output is the 51st parameter. -/
theorem C6_one_image_output_counterexample :
    (get_operation_details exEnvBig "bigop").has_one_image_output = true ∧
    (exBigOp.params.filter (fun p =>
        !(hasFlag p.flags VIPS_ARGUMENT_DEPRECATED)
        && hasFlag p.flags VIPS_ARGUMENT_OUTPUT
        && (exEnvBig.typeCaps p.pspec.value_type).isImage)).length = 2 := by
  decide

/-- Claim C6, amended: has_one_image_output is true if and only if exactly
one record of the collected argument list (the non-deprecated parameters,
truncated at the capacity of 50) is output-direction with an image value
kind. -/
theorem C6_one_image_output_amended (env : IntroEnv) (name : String) (op : OpClass)
    (h : vips_operation_new env name = some op) :
    (get_operation_details env name).has_one_image_output = true ↔
      ((op_args op).filter (fun a =>
          a.is_output == true && (env.typeCaps a.type_val).isImage)).length = 1 := by
  unfold get_operation_details
  rw [h]
  simp [has_image_param]

set_option maxRecDepth 8000 in
/-- Witness for claim C6 on the concrete operation exBigOp. -/
theorem C6_one_image_output_witness :
    ((op_args exBigOp).filter (fun a =>
        a.is_output == true && (exEnvBig.typeCaps a.type_val).isImage)).length = 1 :=
  (C6_one_image_output_amended exEnvBig "bigop" exBigOp (by decide)).mp (by decide)

/-- Length of the collection loop output: the capacity caps the count of
non-deprecated walked parameters added on top of the accumulator. -/
theorem collect_args_loop_length (maxc : Nat) :
    ∀ (ps : List VipsParam) (acc : List ArgInfo), acc.length ≤ maxc →
      (collect_args_loop ps acc maxc).length =
        min maxc (acc.length +
          (ps.filter (fun p => !(hasFlag p.flags VIPS_ARGUMENT_DEPRECATED))).length) := by
  intro ps
  induction ps with
  | nil =>
    intro acc h
    simp [collect_args_loop]
    omega
  | cons p rest ih =>
    intro acc h
    simp only [collect_args_loop]
    by_cases hfull : acc.length ≥ maxc
    · rw [if_pos hfull, ih acc h]
      have hlen : acc.length = maxc := le_antisymm h hfull
      cases hdep : hasFlag p.flags VIPS_ARGUMENT_DEPRECATED <;>
        simp [List.filter_cons, hdep, hlen]
    · rw [if_neg hfull]
      cases hdep : hasFlag p.flags VIPS_ARGUMENT_DEPRECATED with
      | true =>
        simp only [hdep, if_true]
        rw [ih acc h]
        simp [List.filter_cons, hdep]
      | false =>
        simp only [hdep, Bool.false_eq_true, if_false]
        cases hca : collect_argument p with
        | none => simp [collect_argument, hdep] at hca
        | some b =>
          rw [ih (acc ++ [b]) (by simp; omega)]
          simp [List.filter_cons, hdep]
          omega

/-- Claim C7: for every instantiable operation the argument listing
succeeds and returns at most 50 records: exactly the number of
non-deprecated declared parameters, capped at 50, so parameters beyond the
capacity are silently dropped rather than reported as an error. -/
theorem C7_truncation (env : IntroEnv) (name : String) (op : OpClass)
    (h : vips_operation_new env name = some op) :
    get_operation_arguments env name = some (op_args op) ∧
    (op_args op).length =
      min 50 ((op.params.filter
        (fun p => !(hasFlag p.flags VIPS_ARGUMENT_DEPRECATED))).length) ∧
    (op_args op).length ≤ 50 := by
  have hlen := collect_args_loop_length max_args op.params [] (by simp)
  refine ⟨by simp [get_operation_arguments, h], ?_, ?_⟩
  · simpa [op_args, max_args] using hlen
  · have h2 : (op_args op).length =
        min 50 ((op.params.filter
          (fun p => !(hasFlag p.flags VIPS_ARGUMENT_DEPRECATED))).length) := by
      simpa [op_args, max_args] using hlen
    omega

/-- Witness for claim C7 on the 51-parameter operation exBigOp. -/
theorem C7_truncation_witness : (op_args exBigOp).length ≤ 50 :=
  (C7_truncation exEnvBig "bigop" exBigOp (by decide)).2.2

/-- Claim C8: get_enum_values returns the empty result for a name that
does not resolve in the registry, and for a resolved type whose reported
value count is 0 or above 100; a non-empty result is returned only when
the count lies in [1, 100]. -/
theorem C8_enum_bounds (env : EnumEnv) (name : String) :
    (env.type_from_name name = none → get_enum_values env name = none) ∧
    (∀ (t : Nat) (ec : GEnumClass), env.type_from_name name = some t →
        env.enum_class_of t = some ec →
        (ec.values.length = 0 ∨ ec.values.length > 100) →
        get_enum_values env name = none) ∧
    (∀ vs : List EnumValueInfo, get_enum_values env name = some vs →
        ∃ (t : Nat) (ec : GEnumClass), env.type_from_name name = some t ∧
          env.enum_class_of t = some ec ∧
          1 ≤ ec.values.length ∧ ec.values.length ≤ 100) := by
  refine ⟨?_, ?_, ?_⟩
  · intro h
    simp [get_enum_values, h]
  · intro t ec ht hec hcount
    have hcond : ec.values.length ≤ 0 ∨ ec.values.length > 100 := by omega
    simp only [get_enum_values, ht, hec]
    rw [if_pos hcond]
  · intro vs h
    unfold get_enum_values at h
    split at h
    · exact absurd h (by simp)
    · next t ht =>
      split at h
      · exact absurd h (by simp)
      · next ec hec =>
        dsimp only at h
        split at h
        · exact absurd h (by simp)
        · next hcond =>
          exact ⟨t, ec, ht, hec, by omega, by omega⟩

/-- A concrete enum class with one well-formed value and one value whose
name and nick are both NULL in the registry. -/
def exEnumVals : GEnumClass :=
  ⟨[⟨some "VIPS_ANGLE_D0", 0, some "d0"⟩, ⟨none, 1, none⟩]⟩

/-- A concrete enum environment: the name VipsAngle resolves to GType 7,
whose enum class is exEnumVals; every other name is unknown. -/
def exEnumEnv : EnumEnv :=
  ⟨fun s => if s == "VipsAngle" then some 7 else none,
   fun t => if t == 7 then some exEnumVals else none⟩

/-- Witness for claim C8: the unknown name NoSuchType yields the empty
result. -/
theorem C8_enum_bounds_witness : get_enum_values exEnumEnv "NoSuchType" = none :=
  (C8_enum_bounds exEnumEnv "NoSuchType").1 (by decide)

/-- Claim C9: every record returned by get_enum_values has a non-null
name (the literal UNKNOWN replaces a NULL registry name) and a non-null
nick (the empty string replaces a NULL registry nick), each record
matching its registry value in order. -/
theorem C9_enum_nonnull (env : EnumEnv) (name : String) (vs : List EnumValueInfo)
    (h : get_enum_values env name = some vs) :
    (∀ v ∈ vs, v.name ≠ none ∧ v.nick ≠ none) ∧
    ∃ (t : Nat) (ec : GEnumClass), env.type_from_name name = some t ∧
      env.enum_class_of t = some ec ∧
      List.Forall₂ (fun (gv : GEnumValue) (v : EnumValueInfo) =>
        v.name = some (gv.value_name.getD "UNKNOWN") ∧ v.value = gv.value ∧
        v.nick = some (gv.value_nick.getD "")) ec.values vs := by
  unfold get_enum_values at h
  split at h
  · exact absurd h (by simp)
  · next t ht =>
    split at h
    · exact absurd h (by simp)
    · next ec hec =>
      dsimp only at h
      split at h
      · exact absurd h (by simp)
      · next hcond =>
        have hvs := (Option.some.inj h).symm
        subst hvs
        constructor
        · intro v hv
          obtain ⟨gv, _, rfl⟩ := List.mem_map.mp hv
          constructor
          · cases gv.value_name <;> simp
          · cases gv.value_nick <;> simp
        · refine ⟨t, ec, ht, hec, ?_⟩
          rw [List.forall₂_map_right_iff]
          rw [List.forall₂_same]
          intro gv _
          refine ⟨?_, rfl, ?_⟩
          · cases gv.value_name <;> rfl
          · cases gv.value_nick <;> rfl

/-- Witness for claim C9 on the concrete environment exEnumEnv: the
record produced for the NULL-name NULL-nick registry value. -/
theorem C9_enum_nonnull_witness :
    (⟨some "UNKNOWN", 1, some ""⟩ : EnumValueInfo).name ≠ none ∧
    (⟨some "UNKNOWN", 1, some ""⟩ : EnumValueInfo).nick ≠ none :=
  (C9_enum_nonnull exEnumEnv "VipsAngle"
      [⟨some "VIPS_ANGLE_D0", 0, some "d0"⟩, ⟨some "UNKNOWN", 1, some ""⟩]
      (by decide)).1 ⟨some "UNKNOWN", 1, some ""⟩ (by decide)

/-- Claim C2, counterexample.  For a pointer-kind parameter the isArray
tag depends on the parameter name: the recognised name vector makes it
true while the unrecognised name x makes it false, so the claim conjunct
that isArray does not depend on the parameter name fails (isImage
nevertheless agrees on both names). -/
theorem C2_classification_counterexample :
    (classify_param "vector" capsPointer).is_array = true ∧
    (classify_param "x" capsPointer).is_array = false ∧
    (classify_param "vector" capsPointer).is_image
      = (classify_param "x" capsPointer).is_image := by
  decide

/-- Claim C2, amended: isImage is the image-type test and never depends
on the parameter name; isBuffer holds exactly for the names buf and
buffer with a pointer-like, byte-blob-like or opaque kind; isArray is the
array-kind test extended by the recognised conventional array names, and
depends on the name only through that pointer-kind disjunct (for a
non-pointer kind it is name-independent). -/
theorem C2_classification_amended (n1 n2 : String) (c : TypeCaps) :
    (classify_param n1 c).is_image = c.isImage ∧
    (classify_param n1 c).is_image = (classify_param n2 c).is_image ∧
    ((classify_param n1 c).is_buffer = true → n1 = "buf" ∨ n1 = "buffer") ∧
    (classify_param n1 c).is_buffer = ((n1 == "buf" || n1 == "buffer")
        && (c.isPointer || c.isBytes || c.isBlob || c.nameIsNull || c.isGPointerName)) ∧
    (classify_param n1 c).is_array = (c.isArrayDouble || c.isArrayInt || c.isArrayImage
        || (c.isPointer && array_param_names.contains n1)) ∧
    (c.isPointer = false →
      (classify_param n1 c).is_array = (classify_param n2 c).is_array) := by
  refine ⟨rfl, rfl, ?_, ?_, rfl, ?_⟩
  · intro hb
    have : (n1 == "buf" || n1 == "buffer") = true := by
      simp only [classify_param, Bool.and_eq_true] at hb
      exact hb.1
    simpa using this
  · simp [classify_param, Bool.or_assoc]
  · intro hp
    simp [classify_param, hp]

/-- Witness for claim C2 on the name buf with a pointer-kind capability
row. -/
theorem C2_classification_witness :
    (classify_param "buf" capsPointer).is_buffer
      = (("buf" == "buf" || "buf" == "buffer")
        && (capsPointer.isPointer || capsPointer.isBytes || capsPointer.isBlob
          || capsPointer.nameIsNull || capsPointer.isGPointerName)) :=
  (C2_classification_amended "buf" "x" capsPointer).2.2.2.1
